import Mathlib

/-!
Verification of the payment state tracking and reconciliation layer of a
REST facade over a Lightning/Liquid payment SDK.

The embedding models:
- `SdkListener` (src/nodeless.py): in-memory per-payment state tracker fed
  by asynchronous SDK events (`on_event`, `_update_payment_state`,
  `is_paid`, `clear_old_data`, ...).  Python dicts are modelled as
  functions `String → Option _`; the legacy `paid`/`refunded` lists keep
  their list representation (append-if-absent, remove on expiry).
- `PaymentHandler.check_payment_status` and `PaymentHandler.send_payment`
  (src/nodeless.py): the payment engine (Breez SDK) is an opaque external
  collaborator, passed in as lookup/prepare/send functions returning
  `Except` (an `Except.error` models a raised exception).
- the watchdog resync timeout of `periodic_sync_check` (src/fly/main.py).

Wall-clock time (`time.time()`) is passed explicitly as a `Nat` argument
wherever the Python code reads the clock.
-/

namespace Breez

/-- Python `str` truthiness for an optional string: `None` and `""` are
falsy, every other string is truthy.  Used for `if error:` and
`if cached_status:` in src/nodeless.py. -/
def strTruthy : Option String → Bool
  | some s => !(s == "")
  | none => false

/-- Pointwise update of a dict modelled as a function (`d[k] = v`). -/
def mapSet {β : Type} (m : String → Option β) (k : String) (v : β) :
    String → Option β :=
  fun x => if x = k then some v else m x

/-- Pointwise removal from a dict modelled as a function
(`del d[k]` / `d.pop(k, None)`). -/
def mapDel {β : Type} (m : String → Option β) (k : String) :
    String → Option β :=
  fun x => if x = k then none else m x

/-- The details payload carried by a payment event.  Per the spec (§6) the
payload has optional `payment_hash`, `destination`, `swap_id`, `error`
fields; `none` models an absent attribute (the `hasattr`/`getattr`
default paths in `SdkListener.on_event`). -/
structure EventDetails where
  payment_hash : Option String := none
  destination : Option String := none
  swap_id : Option String := none
  error : Option String := none
  deriving DecidableEq, Repr

/-- The SDK event stream consumed by the listener (`SdkEvent` variants
handled in `SdkListener.on_event`).  Each payment event carries an
optional details payload (`getattr(event, 'details', None)`). -/
inductive SdkEvent where
  | SYNCED
  | PAYMENT_PENDING (details : Option EventDetails)
  | PAYMENT_WAITING_CONFIRMATION (details : Option EventDetails)
  | PAYMENT_SUCCEEDED (details : Option EventDetails)
  | PAYMENT_FAILED (details : Option EventDetails)
  | PAYMENT_WAITING_FEE_ACCEPTANCE (details : Option EventDetails)
  deriving DecidableEq, Repr

/-- State of `SdkListener` (src/nodeless.py, `__init__`): sync flag, the
legacy `paid` list, the `refunded` list, and the four tracking dicts. -/
structure SdkListener where
  synced : Bool
  paid : List String
  refunded : List String
  payment_statuses : String → Option String
  payment_errors : String → Option String
  payment_timestamps : String → Option Nat
  payment_details : String → Option EventDetails

/-- The freshly constructed listener (`SdkListener.__init__`). -/
def SdkListener.init : SdkListener where
  synced := false
  paid := []
  refunded := []
  payment_statuses := fun _ => none
  payment_errors := fun _ => none
  payment_timestamps := fun _ => none
  payment_details := fun _ => none

/-- The error-tracking block of `_update_payment_state` (lines 93–97 of
src/nodeless.py): a truthy error is stored; otherwise, on a non-FAILED
status, a previously stored error is deleted. -/
def updErrors (m : String → Option String) (identifier status : String)
    (error : Option String) : String → Option String :=
  if strTruthy error then mapSet m identifier (error.getD "")
  else if status ≠ "FAILED" ∧ (m identifier).isSome then mapDel m identifier
  else m

/-- The paid-list block of `_update_payment_state` (lines 99–103 of
src/nodeless.py): on `WAITING_CONFIRMATION`/`SUCCEEDED` the identifier is
appended unless already present. -/
def updPaid (p : List String) (identifier status : String) : List String :=
  if status = "WAITING_CONFIRMATION" ∨ status = "SUCCEEDED" then
    if identifier ∈ p then p else p ++ [identifier]
  else p

/-- `SdkListener._update_payment_state(identifier, status, details, error)`
with the current clock reading passed as `now` (the Python code calls
`int(time.time())`).  An empty identifier is rejected up front
(`if not identifier: return`). -/
def SdkListener._update_payment_state (L : SdkListener) (identifier status : String)
    (details : Option EventDetails) (error : Option String) (now : Nat) :
    SdkListener :=
  if identifier = "" then L
  else
    { L with
      payment_statuses := mapSet L.payment_statuses identifier status
      payment_timestamps := mapSet L.payment_timestamps identifier now
      payment_details :=
        if details.isSome then
          mapSet L.payment_details identifier (details.getD {})
        else L.payment_details
      payment_errors := updErrors L.payment_errors identifier status error
      paid := updPaid L.paid identifier status }

/-- One step of the `hasattr(details, f) and details.f` probe: a field
contributes an identifier only when it is present and truthy
(non-empty). -/
def truthyField : Option String → Option String
  | some s => if s = "" then none else some s
  | none => none

/-- Identifier resolution in `SdkListener.on_event`: try `payment_hash`,
then `destination`, then `swap_id`; the first present-and-truthy field
wins (the `if/elif/elif` chain at lines 125–131 of src/nodeless.py). -/
def resolveIdentifier (d : EventDetails) : Option String :=
  match truthyField d.payment_hash with
  | some s => some s
  | none =>
      match truthyField d.destination with
      | some s => some s
      | none => truthyField d.swap_id

/-- Specification-side resolution (from the spec's words): the first
non-empty value among payment hash, destination, swap id, in that
order.  Compared with `resolveIdentifier` in the refinement theorem. -/
def resolveSpec (d : EventDetails) : Option String :=
  ([d.payment_hash, d.destination, d.swap_id].filterMap truthyField).head?

/-- Shared body of the payment-event branches of `on_event`: extract the
details payload, resolve an identifier, and call `_update_payment_state`
with the branch's status string.  `withError` is true exactly for the
`PAYMENT_FAILED` branch, which reads
`getattr(details, 'error', 'Unknown error')`. -/
def processPaymentEvent (L : SdkListener) (od : Option EventDetails)
    (status : String) (withError : Bool) (now : Nat) : SdkListener :=
  match od with
  | none => L
  | some d =>
      match resolveIdentifier d with
      | none => L
      | some identifier =>
          let error : Option String :=
            if withError then some (d.error.getD "Unknown error") else none
          L._update_payment_state identifier status (some d) error now

/-- `SdkListener.on_event(event)` with the clock reading passed as `now`. -/
def SdkListener.on_event (L : SdkListener) (event : SdkEvent) (now : Nat) :
    SdkListener :=
  match event with
  | .SYNCED => { L with synced := true }
  | .PAYMENT_PENDING od => processPaymentEvent L od "PENDING" false now
  | .PAYMENT_WAITING_CONFIRMATION od =>
      processPaymentEvent L od "WAITING_CONFIRMATION" false now
  | .PAYMENT_SUCCEEDED od => processPaymentEvent L od "SUCCEEDED" false now
  | .PAYMENT_FAILED od => processPaymentEvent L od "FAILED" true now
  | .PAYMENT_WAITING_FEE_ACCEPTANCE od =>
      processPaymentEvent L od "WAITING_FEE_ACCEPTANCE" false now

/-- A sequence of events, each paired with the clock reading at which the
listener callback processes it. -/
def processEvents (L : SdkListener) (evs : List (SdkEvent × Nat)) :
    SdkListener :=
  evs.foldl (fun acc p => acc.on_event p.1 p.2) L

/-- `SdkListener.is_paid(destination)`: member of the legacy `paid` list,
or current status in `['WAITING_CONFIRMATION', 'SUCCEEDED']`. -/
def SdkListener.is_paid (L : SdkListener) (destination : String) : Bool :=
  destination ∈ L.paid ||
    (match L.payment_statuses destination with
     | some s => s == "WAITING_CONFIRMATION" || s == "SUCCEEDED"
     | none => false)

/-- `SdkListener.get_payment_status(identifier)`. -/
def SdkListener.get_payment_status (L : SdkListener) (identifier : String) :
    Option String :=
  L.payment_statuses identifier

/-- `SdkListener.clear_old_data(max_age_seconds)` with the clock reading
passed as `current_time`.  An identifier is expired when it has a stored
timestamp with `current_time - timestamp > max_age_seconds` (Python int
subtraction can go negative; with `current_time < timestamp` both sides
agree the record is not old, so `Nat` truncation is faithful).  Expired
identifiers are dropped from all four dicts and removed from the `paid`
and `refunded` lists (those lists never hold duplicates, as every insert
is guarded by a membership test, so per-identifier removal is filtering). -/
def SdkListener.clear_old_data (L : SdkListener) (current_time : Nat)
    (max_age_seconds : Nat := 86400) : SdkListener :=
  let old : String → Bool := fun identifier =>
    match L.payment_timestamps identifier with
    | some timestamp => decide (current_time - timestamp > max_age_seconds)
    | none => false
  { L with
    payment_statuses := fun i => if old i then none else L.payment_statuses i
    payment_errors := fun i => if old i then none else L.payment_errors i
    payment_timestamps := fun i => if old i then none else L.payment_timestamps i
    payment_details := fun i => if old i then none else L.payment_details i
    paid := L.paid.filter (fun i => !(old i))
    refunded := L.refunded.filter (fun i => !(old i)) }

/-- Watchdog resync timeout from `periodic_sync_check` (src/fly/main.py):
`timeout = min(5 + (_consecutive_sync_failures * 2), 30)`. -/
def resync_timeout (consecutive_sync_failures : Nat) : Nat :=
  min (5 + consecutive_sync_failures * 2) 30

/-! ### PaymentHandler.check_payment_status -/

/-- A Python value passed as the `payment_identifier` argument: either a
`str` or some non-string object, so that the
`not isinstance(payment_identifier, str)` check is representable. -/
inductive PyVal where
  | mkStr (s : String)
  | nonStr
  deriving DecidableEq, Repr

/-- A payment object returned by the engine's `get_payment` lookup; the
fields `check_payment_status` reads from it. -/
structure EnginePayment where
  status : String
  timestamp : Option Nat := none
  amount_sat : Option Nat := none
  fees_sat : Option Nat := none
  deriving DecidableEq, Repr

/-- The dictionary returned by `check_payment_status`.  `payment_details`
holds the `sdk_to_dict(payment)` snapshot on the fresh path, modelled as
the payment object itself, and `None` on every fallback path. -/
structure StatusResult where
  status : String
  payment_details : Option EnginePayment
  error : Option String
  timestamp : Option Nat
  amount_sat : Option Nat
  fees_sat : Option Nat
  deriving DecidableEq, Repr

/-- An engine lookup: `Except.error` models a raised exception (caught by
`check_payment_status` and treated as a failed lookup), `Except.ok none`
models a falsy return (`if payment:` fails), `Except.ok (some p)` a found
payment. -/
def EngineLookup : Type := String → Except String (Option EnginePayment)

/-- A lookup outcome that does not produce a payment: an exception or a
falsy return.  Both make `check_payment_status` move on to the next
lookup / the fallback chain. -/
def lookupFailed : Except String (Option EnginePayment) → Bool
  | Except.ok (some _) => false
  | _ => true

/-- The fresh-result block of `check_payment_status` (duplicated in the
source for the payment-hash and swap-id lookups, lines 1540–1557 and
1564–1581 of src/nodeless.py): write the fresh status into
`listener.payment_statuses`, append to `listener.paid` when the status is
`WAITING_CONFIRMATION`/`SUCCEEDED`, and build the result dictionary.
Note: the write touches `payment_statuses` and `paid` only — in
particular `payment_timestamps` is not refreshed. -/
def fresh_status_update (L : SdkListener) (identifier : String)
    (p : EnginePayment) : SdkListener × StatusResult :=
  let status := p.status
  let L' :=
    { L with
      payment_statuses := mapSet L.payment_statuses identifier status
      paid :=
        if status = "WAITING_CONFIRMATION" ∨ status = "SUCCEEDED" then
          if identifier ∈ L.paid then L.paid else L.paid ++ [identifier]
        else L.paid }
  (L', { status := status
         payment_details := some p
         error := if status = "FAILED" then some "Payment failed" else none
         timestamp := p.timestamp
         amount_sat := p.amount_sat
         fees_sat := p.fees_sat })

/-- `PaymentHandler.check_payment_status(payment_identifier)`
(src/nodeless.py, lines 1505–1624).  The engine's
`get_payment(GetPaymentRequest.PAYMENT_HASH(...))` and
`get_payment(GetPaymentRequest.SWAP_ID(...))` calls are the `byHash` and
`bySwap` parameters.  Returns the (possibly updated) listener together
with the result dictionary, or `Except.error` for a raised `ValueError`
(invalid identifier). -/
def check_payment_status (byHash bySwap : EngineLookup) (L : SdkListener)
    (payment_identifier : PyVal) :
    Except String (SdkListener × StatusResult) :=
  match payment_identifier with
  | .nonStr => Except.error "Invalid payment identifier"
  | .mkStr pid =>
    if pid = "" then Except.error "Invalid payment identifier"
    else
      match byHash pid with
      | Except.ok (some p) => Except.ok (fresh_status_update L pid p)
      | _ =>
        match bySwap pid with
        | Except.ok (some p) => Except.ok (fresh_status_update L pid p)
        | _ =>
          if pid ∈ L.paid then
            Except.ok (L, { status := "SUCCEEDED"
                            payment_details := none
                            error := none
                            timestamp := none
                            amount_sat := none
                            fees_sat := none })
          else
            let cached_status := L.get_payment_status pid
            if strTruthy cached_status then
              Except.ok (L, { status := cached_status.getD ""
                              payment_details := none
                              error :=
                                if cached_status.getD "" = "FAILED" then
                                  some "Payment failed"
                                else none
                              timestamp := none
                              amount_sat := none
                              fees_sat := none })
            else
              Except.ok (L, { status := "UNKNOWN"
                              payment_details := none
                              error := some "Payment not found"
                              timestamp := none
                              amount_sat := none
                              fees_sat := none })

/-! ### PaymentHandler.send_payment -/

/-- The SDK's `PayAmount` variants built by `send_payment`.  The asset
amount is a Python float carried opaquely (no arithmetic is performed on
it), so it is kept as a type parameter. -/
inductive PayAmount (α : Type) where
  | DRAIN
  | BITCOIN (receiver_amount_sat : Nat)
  | ASSET (asset_id : String) (receiver_amount : α) (estimate_asset_fees : Bool)
  deriving DecidableEq, Repr

/-- The `ValueError` message raised by `send_payment` for inconsistent or
missing amount arguments. -/
def sendAmountErrorMsg : String :=
  "Provide either amount_sat, or (amount_asset and asset_id), or drain=True."

/-- The amount-argument validation of `send_payment` (src/nodeless.py,
lines 576–596), mirrored branch for branch: `drain` is tested first and
short-circuits every other argument; then `amount_sat` (conflicting with
any asset argument); then the complete asset pair (whose inner
`amount_sat is not None or drain` re-check is unreachable at that point);
otherwise the arguments are missing or inconsistent. -/
def compute_amount_obj {α : Type} (amount_sat : Option Nat)
    (amount_asset : Option α) (asset_id : Option String) (drain : Bool) :
    Except String (PayAmount α) :=
  if drain then Except.ok PayAmount.DRAIN
  else
    match amount_sat with
    | some sat =>
        if amount_asset.isSome || asset_id.isSome then
          Except.error sendAmountErrorMsg
        else Except.ok (PayAmount.BITCOIN sat)
    | none =>
        match amount_asset, asset_id with
        | some a, some i =>
            if drain then Except.error sendAmountErrorMsg
            else Except.ok (PayAmount.ASSET i a false)
        | _, _ => Except.error sendAmountErrorMsg

/-- `prepare_send_payment` response: the field `send_payment` reads. -/
structure PrepareSendResponse where
  fees_sat : Nat
  deriving DecidableEq, Repr

/-- The payment object inside the engine's `send_payment` response, with
the fields the handler extracts. -/
structure SentPayment where
  status : String
  destination : Option String := none
  payment_hash : Option String := none
  swap_id : Option String := none
  deriving DecidableEq, Repr

/-- The dictionary `send_payment` returns on success. -/
structure SendResult where
  status : String
  destination : Option String
  fees_sat : Nat
  payment_hash : Option String
  swap_id : Option String
  deriving DecidableEq, Repr

/-- `PaymentHandler.send_payment(destination, amount_sat, amount_asset,
asset_id, drain)` (src/nodeless.py, lines 557–627).  The engine's
`prepare_send_payment` and `send_payment` calls are passed in as
functions; the second component of the result counts how many engine
calls were made before returning, so "fails before any engine call" is
the statement "the count is 0". -/
def send_payment {α : Type}
    (prepare_send_payment : String → PayAmount α → Except String PrepareSendResponse)
    (sdk_send_payment : PrepareSendResponse → Except String SentPayment)
    (destination : String) (amount_sat : Option Nat) (amount_asset : Option α)
    (asset_id : Option String) (drain : Bool) :
    Except String SendResult × Nat :=
  match compute_amount_obj amount_sat amount_asset asset_id drain with
  | Except.error e => (Except.error e, 0)
  | Except.ok amount_obj =>
    match prepare_send_payment destination amount_obj with
    | Except.error e => (Except.error e, 1)
    | Except.ok prepare_res =>
      match sdk_send_payment prepare_res with
      | Except.error e => (Except.error e, 2)
      | Except.ok payment =>
          (Except.ok { status := payment.status
                       destination := payment.destination
                       fees_sat := prepare_res.fees_sat
                       payment_hash := payment.payment_hash
                       swap_id := payment.swap_id }, 2)

/-! ### Auxiliary observations on events, and states used by witnesses -/

/-- The details payload carried by a payment event (`getattr(event,
'details', None)`); `SYNCED` carries no payload. -/
def eventDetailsOf : SdkEvent → Option EventDetails
  | .SYNCED => none
  | .PAYMENT_PENDING od => od
  | .PAYMENT_WAITING_CONFIRMATION od => od
  | .PAYMENT_SUCCEEDED od => od
  | .PAYMENT_FAILED od => od
  | .PAYMENT_WAITING_FEE_ACCEPTANCE od => od

/-- Whether an event is one of the payment events (everything except
`SYNCED`). -/
def isPaymentEvent : SdkEvent → Bool
  | .SYNCED => false
  | _ => true

/-- The status string `on_event` writes for each payment event kind. -/
def eventStatusStr : SdkEvent → Option String
  | .SYNCED => none
  | .PAYMENT_PENDING _ => some "PENDING"
  | .PAYMENT_WAITING_CONFIRMATION _ => some "WAITING_CONFIRMATION"
  | .PAYMENT_SUCCEEDED _ => some "SUCCEEDED"
  | .PAYMENT_FAILED _ => some "FAILED"
  | .PAYMENT_WAITING_FEE_ACCEPTANCE _ => some "WAITING_FEE_ACCEPTANCE"

/-- The error-field invariant of the tracker: a record's error entry is
non-empty exactly when its current status is `FAILED`. -/
def errorInvariant (L : SdkListener) : Prop :=
  ∀ id, strTruthy (L.payment_errors id) = true ↔
    L.payment_statuses id = some "FAILED"

/-- A `PAYMENT_FAILED` event whose details payload does not carry an
empty-string error value (an absent field is fine: it defaults to
`'Unknown error'`).  Other events satisfy this trivially. -/
def failedErrorTruthy : SdkEvent → Prop
  | .PAYMENT_FAILED (some d) => d.error ≠ some ""
  | _ => True

/-- A concrete tracker with one stale record (`last_updated = 10`) and one
fresh record (`last_updated = 89000`), used to exercise the expiry
sweep. -/
def sampleTracker : SdkListener :=
  { SdkListener.init with
    payment_statuses := fun x =>
      if x = "old1" then some "SUCCEEDED"
      else if x = "new1" then some "PENDING" else none
    payment_timestamps := fun x =>
      if x = "old1" then some 10
      else if x = "new1" then some 89000 else none
    paid := ["old1"] }

/-- A single `PAYMENT_FAILED` event carrying a non-empty error message,
used to exercise the error-field invariant. -/
def sampleFailedEvents : List (SdkEvent × Nat) :=
  [(SdkEvent.PAYMENT_FAILED
      (some { payment_hash := some "xyz", error := some "swap expired" }), 50)]

/-! ## Shared lemmas about the state tracker -/

theorem mapSet_lookup {β : Type} (m : String → Option β) (k : String) (v : β)
    (x : String) : mapSet m k v x = if x = k then some v else m x := rfl

theorem mapDel_lookup {β : Type} (m : String → Option β) (k x : String) :
    mapDel m k x = if x = k then none else m x := rfl

theorem update_statuses_lookup (L : SdkListener) (id status : String)
    (d : Option EventDetails) (e : Option String) (t : Nat) (x : String) :
    (L._update_payment_state id status d e t).payment_statuses x
      = if id ≠ "" ∧ x = id then some status else L.payment_statuses x := by
  unfold SdkListener._update_payment_state
  by_cases hid : id = "" <;> by_cases hx : x = id <;>
    simp [hid, hx, mapSet_lookup]

theorem update_timestamps_lookup (L : SdkListener) (id status : String)
    (d : Option EventDetails) (e : Option String) (t : Nat) (x : String) :
    (L._update_payment_state id status d e t).payment_timestamps x
      = if id ≠ "" ∧ x = id then some t else L.payment_timestamps x := by
  unfold SdkListener._update_payment_state
  by_cases hid : id = "" <;> by_cases hx : x = id <;>
    simp [hid, hx, mapSet_lookup]

theorem updErrors_other (m : String → Option String) (id status : String)
    (e : Option String) (x : String) (hx : x ≠ id) :
    updErrors m id status e x = m x := by
  unfold updErrors
  split
  · simp [mapSet_lookup, hx]
  · split
    · simp [mapDel_lookup, hx]
    · rfl

theorem update_errors_other (L : SdkListener) (id status : String)
    (d : Option EventDetails) (e : Option String) (t : Nat) (x : String)
    (hx : x ≠ id) :
    (L._update_payment_state id status d e t).payment_errors x
      = L.payment_errors x := by
  unfold SdkListener._update_payment_state
  by_cases hid : id = ""
  · simp [hid]
  · simp only [if_neg hid]
    exact updErrors_other _ _ _ _ _ hx

/-! ## Claim theorems -/

/-- Claim C5: the watchdog resync timeout is `min(5 + 2×failures, 30)`
seconds; failure counts 0,1,2,3,4 give 5,7,9,11,13 seconds, and every
failure count ≥ 13 gives the cap 30. -/
theorem resync_timeout_spec :
    (∀ f : Nat, resync_timeout f = min (5 + 2 * f) 30) ∧
    resync_timeout 0 = 5 ∧ resync_timeout 1 = 7 ∧ resync_timeout 2 = 9 ∧
    resync_timeout 3 = 11 ∧ resync_timeout 4 = 13 ∧
    (∀ f : Nat, 13 ≤ f → resync_timeout f = 30) := by
  refine ⟨fun f => ?_, by decide, by decide, by decide, by decide, by decide,
    fun f hf => ?_⟩
  · unfold resync_timeout
    omega
  · unfold resync_timeout
    omega

/-- Witness for `resync_timeout_spec` at failure count 13. -/
theorem resync_timeout_spec_witness :
    resync_timeout 13 = min (5 + 2 * 13) 30 ∧ (13 ≤ 13 ∧ resync_timeout 13 = 30) :=
  ⟨resync_timeout_spec.1 13, by decide, resync_timeout_spec.2.2.2.2.2.2 13 (by decide)⟩

/-- Claim C10: an identifier that is not a non-empty string (the empty
string, or a non-string value) makes `check_payment_status` raise
`ValueError("Invalid payment identifier")` instead of returning a result
dictionary, for every engine and tracker state. -/
theorem check_invalid_identifier (byHash bySwap : EngineLookup)
    (L : SdkListener) :
    check_payment_status byHash bySwap L (PyVal.mkStr "")
        = Except.error "Invalid payment identifier" ∧
    check_payment_status byHash bySwap L PyVal.nonStr
        = Except.error "Invalid payment identifier" := by
  constructor <;> rfl

/-- Counterexample to claim C3 as stated: supplying two amount modes at
once (`drain=True` together with `amount_sat=1000`) does not fail with a
`ValueError`; `drain` silently overrides the other arguments, the payment
proceeds, and the engine receives two calls. -/
theorem send_payment_modes_counterexample :
    @send_payment Nat (fun _ _ => Except.ok { fees_sat := 10 })
        (fun _ => Except.ok { status := "PENDING" })
        "lnbc1" (some 1000) none none true
      = (Except.ok { status := "PENDING", destination := none, fees_sat := 10,
                     payment_hash := none, swap_id := none }, 2) := by rfl

/-- Claim C3 (amended): when `drain` is false, supplying `amount_sat`
together with either asset argument, or failing to supply a complete
amount mode, fails with the invalid-argument `ValueError` before any
engine call is made (zero engine calls); when `drain` is true it
overrides the other amount arguments and the call behaves exactly as a
pure drain request. -/
theorem send_payment_validation {α : Type}
    (prep : String → PayAmount α → Except String PrepareSendResponse)
    (send : PrepareSendResponse → Except String SentPayment)
    (destination : String) (amount_sat : Option Nat) (amount_asset : Option α)
    (asset_id : Option String) :
    ((amount_sat.isSome ∧ (amount_asset.isSome ∨ asset_id.isSome)) →
       send_payment prep send destination amount_sat amount_asset asset_id false
         = (Except.error sendAmountErrorMsg, 0)) ∧
    ((amount_sat = none ∧ ¬(amount_asset.isSome ∧ asset_id.isSome)) →
       send_payment prep send destination amount_sat amount_asset asset_id false
         = (Except.error sendAmountErrorMsg, 0)) ∧
    (send_payment prep send destination amount_sat amount_asset asset_id true
       = send_payment prep send destination none none none true) := by
  refine ⟨?_, ?_, rfl⟩
  · rintro ⟨hsat, hconf⟩
    rcases Option.isSome_iff_exists.mp hsat with ⟨sat, rfl⟩
    rcases hconf with h | h <;>
      simp [send_payment, compute_amount_obj, h]
  · rintro ⟨rfl, hmiss⟩
    cases amount_asset <;> cases asset_id <;>
      simp_all [send_payment, compute_amount_obj]

/-- Witness for `send_payment_validation`: conflicting
`amount_sat`/`amount_asset` arguments (drain off) produce the
`ValueError` with zero engine calls. -/
theorem send_payment_validation_witness :
    @send_payment Nat (fun _ _ => Except.ok { fees_sat := 10 })
        (fun _ => Except.ok { status := "PENDING" })
        "lnbc1" (some 1000) (some 1) none false
      = (Except.error sendAmountErrorMsg, 0) :=
  (send_payment_validation _ _ _ _ _ _).1 ⟨by decide, Or.inl (by decide)⟩

/-- Claim C1: when both fresh engine lookups fail (exception or falsy
return), `check_payment_status` falls back deterministically: (a)
identifier in the tracker's `paid` list → `SUCCEEDED` with null details;
(b) otherwise a cached status → that status; (c) otherwise `UNKNOWN` with
a "Payment not found" error — and the not-found case is returned, never
raised. -/
theorem check_fallback_chain (byHash bySwap : EngineLookup) (L : SdkListener)
    (pid : String) (hpid : pid ≠ "")
    (h1 : lookupFailed (byHash pid) = true)
    (h2 : lookupFailed (bySwap pid) = true) :
    (pid ∈ L.paid →
       check_payment_status byHash bySwap L (PyVal.mkStr pid)
         = Except.ok (L, { status := "SUCCEEDED", payment_details := none, error := none, timestamp := none, amount_sat := none, fees_sat := none })) ∧
    (pid ∉ L.paid → ∀ st, L.payment_statuses pid = some st → st ≠ "" →
       check_payment_status byHash bySwap L (PyVal.mkStr pid)
         = Except.ok (L, { status := st, payment_details := none, error := if st = "FAILED" then some "Payment failed" else none, timestamp := none, amount_sat := none, fees_sat := none })) ∧
    (pid ∉ L.paid → L.payment_statuses pid = none →
       check_payment_status byHash bySwap L (PyVal.mkStr pid)
         = Except.ok (L, { status := "UNKNOWN", payment_details := none, error := some "Payment not found", timestamp := none, amount_sat := none, fees_sat := none })) ∧
    (∃ out, check_payment_status byHash bySwap L (PyVal.mkStr pid)
        = Except.ok out) := by
  have hred : check_payment_status byHash bySwap L (PyVal.mkStr pid)
      = if pid ∈ L.paid then
          Except.ok (L, { status := "SUCCEEDED", payment_details := none, error := none, timestamp := none, amount_sat := none, fees_sat := none })
        else if strTruthy (L.get_payment_status pid) then
          Except.ok (L, { status := (L.get_payment_status pid).getD "", payment_details := none, error := if (L.get_payment_status pid).getD "" = "FAILED" then some "Payment failed" else none, timestamp := none, amount_sat := none, fees_sat := none })
        else
          Except.ok (L, { status := "UNKNOWN", payment_details := none, error := some "Payment not found", timestamp := none, amount_sat := none, fees_sat := none }) := by
    unfold check_payment_status
    rcases hbv : byHash pid with e1 | o1
    · rcases hsv : bySwap pid with e2 | o2
      · simp [hpid, hbv, hsv]
      · rcases o2 with _ | p
        · simp [hpid, hbv, hsv]
        · rw [hsv] at h2; simp [lookupFailed] at h2
    · rcases o1 with _ | p
      · rcases hsv : bySwap pid with e2 | o2
        · simp [hpid, hbv, hsv]
        · rcases o2 with _ | p
          · simp [hpid, hbv, hsv]
          · rw [hsv] at h2; simp [lookupFailed] at h2
      · rw [hbv] at h1; simp [lookupFailed] at h1
  refine ⟨fun hmem => ?_, fun hnmem st hst hne => ?_, fun hnmem hst => ?_, ?_⟩
  · rw [hred, if_pos hmem]
  · rw [hred, if_neg hnmem]
    simp [SdkListener.get_payment_status, hst, strTruthy, hne]
  · rw [hred, if_neg hnmem]
    simp [SdkListener.get_payment_status, hst, strTruthy]
  · rw [hred]
    by_cases hmem : pid ∈ L.paid
    · exact ⟨_, by rw [if_pos hmem]⟩
    · rw [if_neg hmem]
      by_cases htr : strTruthy (L.get_payment_status pid) = true
      · exact ⟨_, by rw [if_pos htr]⟩
      · exact ⟨_, by rw [if_neg htr]⟩

/-- Witness for `check_fallback_chain`: both lookups fail for an
identifier sitting in the `paid` list, and the result is `SUCCEEDED`
with null details. -/
theorem check_fallback_chain_witness :
    check_payment_status (fun _ => Except.error "not found")
        (fun _ => Except.ok none)
        { SdkListener.init with paid := ["h1"] } (PyVal.mkStr "h1")
      = Except.ok ({ SdkListener.init with paid := ["h1"] },
          { status := "SUCCEEDED", payment_details := none, error := none, timestamp := none, amount_sat := none, fees_sat := none }) :=
  (check_fallback_chain (fun _ => Except.error "not found")
      (fun _ => Except.ok none) { SdkListener.init with paid := ["h1"] }
      "h1" (by decide) rfl rfl).1 (by decide)

/-- Counterexample to claim C9 as stated: a successful fresh lookup in
`check_payment_status` writes the status into the tracker (and the paid
list) but does not set `last_updated` — here the fresh `SUCCEEDED` write
leaves the identifier with no `payment_timestamps` entry at all. -/
theorem check_no_timestamp_write :
    check_payment_status (fun _ => Except.ok (some { status := "SUCCEEDED" }))
        (fun _ => Except.error "boom") SdkListener.init (PyVal.mkStr "pay1")
      = Except.ok (fresh_status_update SdkListener.init "pay1"
          { status := "SUCCEEDED" }) ∧
    (fresh_status_update SdkListener.init "pay1"
        { status := "SUCCEEDED" }).1.payment_statuses "pay1"
      = some "SUCCEEDED" ∧
    (fresh_status_update SdkListener.init "pay1"
        { status := "SUCCEEDED" }).1.payment_timestamps "pay1" = none :=
  ⟨rfl, by decide, rfl⟩

/-- Claim C9 (amended): every listener event write sets the identifier's
`last_updated` to the current clock reading, but the fresh-result write
in `check_payment_status` never touches `payment_timestamps` — on any
successful call the timestamps map is returned unchanged, so
`last_updated` is refreshed by listener writes only (and in particular
remains monotonically non-decreasing under a monotone clock). -/
theorem check_ok_timestamps (byHash bySwap : EngineLookup) (L0 : SdkListener)
    (pid : PyVal) (L1 : SdkListener) (r : StatusResult)
    (hch : check_payment_status byHash bySwap L0 pid = Except.ok (L1, r)) :
    L1.payment_timestamps = L0.payment_timestamps := by
  rcases pid with s | _
  case nonStr => simp [check_payment_status] at hch
  by_cases hs : s = ""
  · simp [check_payment_status, hs] at hch
  · simp only [check_payment_status] at hch
    rw [if_neg hs] at hch
    have hfresh : ∀ p : EnginePayment,
        fresh_status_update L0 s p = (L1, r) →
        L1.payment_timestamps = L0.payment_timestamps := by
      intro p hp
      have h1 : (fresh_status_update L0 s p).1 = L1 := congrArg Prod.fst hp
      rw [← h1]
      rfl
    have hsame : ∀ q : StatusResult, (L0, q) = (L1, r) →
        L1.payment_timestamps = L0.payment_timestamps := by
      intro q hq
      have h1 : L0 = L1 := congrArg Prod.fst hq
      rw [← h1]
    rcases hbv : byHash s with e1 | o1 <;> rw [hbv] at hch
    · rcases hsv : bySwap s with e2 | o2 <;> rw [hsv] at hch
      · simp only [] at hch
        split at hch
        · exact hsame _ (Except.ok.inj hch)
        · split at hch
          · exact hsame _ (Except.ok.inj hch)
          · exact hsame _ (Except.ok.inj hch)
      · rcases o2 with _ | p
        · simp only [] at hch
          split at hch
          · exact hsame _ (Except.ok.inj hch)
          · split at hch
            · exact hsame _ (Except.ok.inj hch)
            · exact hsame _ (Except.ok.inj hch)
        · exact hfresh p (Except.ok.inj hch)
    · rcases o1 with _ | p
      · rcases hsv : bySwap s with e2 | o2 <;> rw [hsv] at hch
        · simp only [] at hch
          split at hch
          · exact hsame _ (Except.ok.inj hch)
          · split at hch
            · exact hsame _ (Except.ok.inj hch)
            · exact hsame _ (Except.ok.inj hch)
        · rcases o2 with _ | p2
          · simp only [] at hch
            split at hch
            · exact hsame _ (Except.ok.inj hch)
            · split at hch
              · exact hsame _ (Except.ok.inj hch)
              · exact hsame _ (Except.ok.inj hch)
          · exact hfresh p2 (Except.ok.inj hch)
      · exact hfresh p (Except.ok.inj hch)

/-- Claim C9 (amended): every listener event write sets the identifier's
`last_updated` to the current clock reading, but the fresh-result write
in `check_payment_status` never touches `payment_timestamps` — on any
successful call the timestamps map is returned unchanged, so
`last_updated` is refreshed by listener writes only (and remains
monotonically non-decreasing under a monotone clock, the listener being
the sole timestamp writer). -/
theorem last_updated_refresh (L : SdkListener) (id status : String)
    (d : Option EventDetails) (e : Option String) (t : Nat)
    (hid : id ≠ "")
    (byHash bySwap : EngineLookup) (L0 L1 : SdkListener) (pid : PyVal)
    (r : StatusResult)
    (hch : check_payment_status byHash bySwap L0 pid = Except.ok (L1, r)) :
    (L._update_payment_state id status d e t).payment_timestamps id = some t
    ∧ L1.payment_timestamps = L0.payment_timestamps := by
  constructor
  · rw [update_timestamps_lookup]
    simp [hid]
  · exact check_ok_timestamps byHash bySwap L0 pid L1 r hch

/-- Witness for `last_updated_refresh`: a listener write at clock 42
stamps the identifier with 42, while a successful fresh
`check_payment_status` call leaves the (empty) timestamps map of the
initial tracker unchanged. -/
theorem last_updated_refresh_witness :
    (SdkListener.init._update_payment_state "pay1" "SUCCEEDED" none none
        42).payment_timestamps "pay1" = some 42
    ∧ (fresh_status_update SdkListener.init "pay2"
          { status := "PENDING" }).1.payment_timestamps
        = SdkListener.init.payment_timestamps :=
  last_updated_refresh SdkListener.init "pay1" "SUCCEEDED" none none 42
    (by decide)
    (fun _ => Except.ok (some { status := "PENDING" }))
    (fun _ => Except.error "boom") SdkListener.init
    (fresh_status_update SdkListener.init "pay2" { status := "PENDING" }).1
    (PyVal.mkStr "pay2")
    (fresh_status_update SdkListener.init "pay2" { status := "PENDING" }).2
    rfl

/-! ## Lemmas about identifier resolution and the paid list -/

theorem truthyField_ne_empty (o : Option String) (s : String)
    (h : truthyField o = some s) : s ≠ "" := by
  cases o with
  | none => simp [truthyField] at h
  | some v =>
    by_cases hv : v = "" <;> simp [truthyField, hv] at h
    exact fun hs => hv (h.trans hs)

theorem resolveIdentifier_ne_empty (d : EventDetails) (id : String)
    (h : resolveIdentifier d = some id) : id ≠ "" := by
  unfold resolveIdentifier at h
  rcases h1 : truthyField d.payment_hash with _ | s1 <;> simp only [h1] at h
  · rcases h2 : truthyField d.destination with _ | s2 <;> simp only [h2] at h
    · exact truthyField_ne_empty _ _ h
    · injection h with h'
      exact h' ▸ truthyField_ne_empty _ _ h2
  · injection h with h'
    exact h' ▸ truthyField_ne_empty _ _ h1

theorem update_paid_eq (L : SdkListener) (id status : String)
    (d : Option EventDetails) (e : Option String) (t : Nat) :
    (L._update_payment_state id status d e t).paid
      = if id = "" then L.paid else updPaid L.paid id status := by
  unfold SdkListener._update_payment_state
  by_cases hid : id = "" <;> simp [hid]

theorem updPaid_mem (p : List String) (id status x : String) (hx : x ∈ p) :
    x ∈ updPaid p id status := by
  unfold updPaid
  split
  · split
    · exact hx
    · exact List.mem_append_left _ hx
  · exact hx

theorem updPaid_self (p : List String) (id status : String)
    (hst : status = "WAITING_CONFIRMATION" ∨ status = "SUCCEEDED") :
    id ∈ updPaid p id status := by
  unfold updPaid
  rw [if_pos hst]
  split
  · assumption
  · exact List.mem_append_right _ (by simp)

theorem update_paid_mem (L : SdkListener) (id status : String)
    (d : Option EventDetails) (e : Option String) (t : Nat) (x : String)
    (hx : x ∈ L.paid) :
    x ∈ (L._update_payment_state id status d e t).paid := by
  rw [update_paid_eq]
  split
  · exact hx
  · exact updPaid_mem _ _ _ _ hx

theorem processPaymentEvent_paid_mem (L : SdkListener)
    (od : Option EventDetails) (status : String) (w : Bool) (t : Nat)
    (x : String) (hx : x ∈ L.paid) :
    x ∈ (processPaymentEvent L od status w t).paid := by
  unfold processPaymentEvent
  rcases od with _ | d
  · exact hx
  · rcases hres : resolveIdentifier d with _ | id <;> simp only [hres]
    · exact hx
    · exact update_paid_mem _ _ _ _ _ _ _ hx

theorem on_event_paid_mem (L : SdkListener) (ev : SdkEvent) (t : Nat)
    (x : String) (hx : x ∈ L.paid) : x ∈ (L.on_event ev t).paid := by
  cases ev <;>
    first
      | exact hx
      | exact processPaymentEvent_paid_mem _ _ _ _ _ _ hx

theorem processEvents_paid_mem (evs : List (SdkEvent × Nat)) :
    ∀ L : SdkListener, ∀ x : String, x ∈ L.paid →
      x ∈ (processEvents L evs).paid := by
  induction evs with
  | nil => exact fun L x hx => hx
  | cons p rest ih =>
      exact fun L x hx => ih _ x (on_event_paid_mem _ _ _ _ hx)

theorem is_paid_of_mem (L : SdkListener) (x : String) (hx : x ∈ L.paid) :
    L.is_paid x = true := by
  unfold SdkListener.is_paid
  simp [hx]

theorem SdkListener.eqOfFields (a b : SdkListener)
    (h1 : a.synced = b.synced) (h2 : a.paid = b.paid)
    (h3 : a.refunded = b.refunded)
    (h4 : a.payment_statuses = b.payment_statuses)
    (h5 : a.payment_errors = b.payment_errors)
    (h6 : a.payment_timestamps = b.payment_timestamps)
    (h7 : a.payment_details = b.payment_details) : a = b := by
  cases a; cases b; simp_all

theorem mapSet_idem {β : Type} (m : String → Option β) (k : String) (v w : β) :
    mapSet (mapSet m k w) k v = mapSet m k v := by
  funext x
  by_cases hx : x = k <;> simp [mapSet_lookup, hx]

theorem updErrors_idem (m : String → Option String) (id status : String)
    (e : Option String) :
    updErrors (updErrors m id status e) id status e
      = updErrors m id status e := by
  unfold updErrors
  by_cases he : strTruthy e = true
  · simp [he, mapSet_idem]
  · by_cases hst : status = "FAILED"
    · simp [he, hst]
    · by_cases hm : (m id).isSome <;>
        simp [he, hst, hm, mapDel_lookup]

theorem updPaid_idem (p : List String) (id status : String) :
    updPaid (updPaid p id status) id status = updPaid p id status := by
  unfold updPaid
  by_cases hst : status = "WAITING_CONFIRMATION" ∨ status = "SUCCEEDED"
  · by_cases hm : id ∈ p <;> simp [hst, hm]
  · simp [hst]

theorem update_idempotent (L : SdkListener) (id status : String)
    (d : Option EventDetails) (e : Option String) (t1 t2 : Nat) :
    (L._update_payment_state id status d e t1)._update_payment_state
        id status d e t2
      = L._update_payment_state id status d e t2 := by
  by_cases hid : id = ""
  · unfold SdkListener._update_payment_state
    simp [hid]
  · unfold SdkListener._update_payment_state
    simp only [if_neg hid]
    apply SdkListener.eqOfFields
    · rfl
    · exact updPaid_idem _ _ _
    · rfl
    · exact mapSet_idem _ _ _ _
    · exact updErrors_idem _ _ _ _
    · exact mapSet_idem _ _ _ _
    · show (if d.isSome then
              mapSet (if d.isSome then mapSet L.payment_details id (d.getD {})
                      else L.payment_details) id (d.getD {})
            else if d.isSome then mapSet L.payment_details id (d.getD {})
            else L.payment_details)
          = if d.isSome then mapSet L.payment_details id (d.getD {})
            else L.payment_details
      by_cases hd : d.isSome <;> simp [hd, mapSet_idem]

theorem processPaymentEvent_idem (L : SdkListener) (od : Option EventDetails)
    (status : String) (w : Bool) (t1 t2 : Nat) :
    processPaymentEvent (processPaymentEvent L od status w t1) od status w t2
      = processPaymentEvent L od status w t2 := by
  unfold processPaymentEvent
  rcases od with _ | d
  · rfl
  · rcases hres : resolveIdentifier d with _ | id <;> simp only [hres]
    exact update_idempotent _ _ _ _ _ _ _

theorem on_event_idem_eq (L : SdkListener) (ev : SdkEvent) (t1 t2 : Nat) :
    (L.on_event ev t1).on_event ev t2 = L.on_event ev t2 := by
  cases ev <;>
    first
      | rfl
      | exact processPaymentEvent_idem _ _ _ _ _ _

theorem processPaymentEvent_timestamps_pair (L : SdkListener)
    (od : Option EventDetails) (status : String) (w : Bool) (t1 t2 : Nat)
    (x : String) :
    ((processPaymentEvent L od status w t1).payment_timestamps x
        = L.payment_timestamps x
      ∧ (processPaymentEvent L od status w t2).payment_timestamps x
        = L.payment_timestamps x)
    ∨ ((processPaymentEvent L od status w t1).payment_timestamps x = some t1
      ∧ (processPaymentEvent L od status w t2).payment_timestamps x
        = some t2) := by
  rcases od with _ | d
  · exact Or.inl ⟨rfl, rfl⟩
  · rcases hres : resolveIdentifier d with _ | id
    · simp only [processPaymentEvent, hres]
      exact Or.inl ⟨trivial, trivial⟩
    · simp only [processPaymentEvent, hres]
      by_cases hc : id ≠ "" ∧ x = id
      · exact Or.inr ⟨by rw [update_timestamps_lookup, if_pos hc],
                      by rw [update_timestamps_lookup, if_pos hc]⟩
      · exact Or.inl ⟨by rw [update_timestamps_lookup, if_neg hc],
                      by rw [update_timestamps_lookup, if_neg hc]⟩

theorem on_event_timestamps_pair (L : SdkListener) (ev : SdkEvent)
    (t1 t2 : Nat) (x : String) :
    ((L.on_event ev t1).payment_timestamps x = L.payment_timestamps x
      ∧ (L.on_event ev t2).payment_timestamps x = L.payment_timestamps x)
    ∨ ((L.on_event ev t1).payment_timestamps x = some t1
      ∧ (L.on_event ev t2).payment_timestamps x = some t2) := by
  cases ev <;>
    first
      | exact Or.inl ⟨rfl, rfl⟩
      | exact processPaymentEvent_timestamps_pair _ _ _ _ _ _ _

theorem updPaid_nodup (p : List String) (id status : String)
    (h : p.Nodup) : (updPaid p id status).Nodup := by
  unfold updPaid
  split
  · split
    · exact h
    · rename_i hmem
      simp [List.nodup_append, h, hmem]
  · exact h

theorem on_event_paid_nodup (L : SdkListener) (ev : SdkEvent) (t : Nat)
    (h : L.paid.Nodup) : ((L.on_event ev t).paid).Nodup := by
  cases ev with
  | SYNCED => exact h
  | PAYMENT_PENDING od | PAYMENT_WAITING_CONFIRMATION od
  | PAYMENT_SUCCEEDED od | PAYMENT_FAILED od
  | PAYMENT_WAITING_FEE_ACCEPTANCE od =>
      show ((processPaymentEvent L od _ _ t).paid).Nodup
      unfold processPaymentEvent
      rcases od with _ | d
      · exact h
      · rcases hres : resolveIdentifier d with _ | id <;> simp only [hres]
        · exact h
        · rw [update_paid_eq]
          split
          · exact h
          · exact updPaid_nodup _ _ _ h

/-- Claim C6: applying the same event twice is idempotent — the doubled
application equals the single application at the later clock reading, the
identifier's `last_updated` only advances (every timestamp present after
the first application is still present, no smaller, after the second),
and no duplicate paid-list entry is created. -/
theorem event_idempotent (L : SdkListener) (ev : SdkEvent) (t1 t2 : Nat)
    (h : t1 ≤ t2) :
    ((L.on_event ev t1).on_event ev t2 = L.on_event ev t2)
    ∧ (∀ id ts1, (L.on_event ev t1).payment_timestamps id = some ts1 →
        ∃ ts2, ((L.on_event ev t1).on_event ev t2).payment_timestamps id
            = some ts2 ∧ ts1 ≤ ts2)
    ∧ (L.paid.Nodup → (((L.on_event ev t1).on_event ev t2).paid).Nodup) := by
  refine ⟨on_event_idem_eq L ev t1 t2, ?_, ?_⟩
  · intro id ts1 hts1
    rw [on_event_idem_eq]
    rcases on_event_timestamps_pair L ev t1 t2 id with ⟨ha, hb⟩ | ⟨ha, hb⟩
    · refine ⟨ts1, ?_, le_refl ts1⟩
      rw [hb, ← ha]
      exact hts1
    · refine ⟨t2, hb, ?_⟩
      rw [hts1] at ha
      have : ts1 = t1 := Option.some.inj ha
      omega
  · intro hnd
    rw [on_event_idem_eq]
    exact on_event_paid_nodup _ _ _ hnd

/-- Witness for `event_idempotent`: a duplicated `PAYMENT_SUCCEEDED`
event at clocks 5 then 9 collapses to the single application at 9, and
the stored timestamp advances from 5 to some value ≥ 5. -/
theorem event_idempotent_witness :
    ((SdkListener.init.on_event
          (SdkEvent.PAYMENT_SUCCEEDED (some { payment_hash := some "w" })) 5).on_event
        (SdkEvent.PAYMENT_SUCCEEDED (some { payment_hash := some "w" })) 9
      = SdkListener.init.on_event
          (SdkEvent.PAYMENT_SUCCEEDED (some { payment_hash := some "w" })) 9)
    ∧ (∃ ts2, ((SdkListener.init.on_event
            (SdkEvent.PAYMENT_SUCCEEDED (some { payment_hash := some "w" })) 5).on_event
          (SdkEvent.PAYMENT_SUCCEEDED (some { payment_hash := some "w" })) 9).payment_timestamps "w"
        = some ts2 ∧ 5 ≤ ts2) :=
  ⟨(event_idempotent SdkListener.init
      (SdkEvent.PAYMENT_SUCCEEDED (some { payment_hash := some "w" })) 5 9
      (by decide)).1,
   (event_idempotent SdkListener.init
      (SdkEvent.PAYMENT_SUCCEEDED (some { payment_hash := some "w" })) 5 9
      (by decide)).2.1 "w" 5 (by decide)⟩

theorem strTruthy_none : strTruthy none = false := rfl

theorem strTruthy_some (s : String) : strTruthy (some s) = !(s == "") := rfl

theorem updErrors_self (m : String → Option String) (id status : String)
    (e : Option String) :
    updErrors m id status e id
      = if strTruthy e then some (e.getD "")
        else if status ≠ "FAILED" ∧ (m id).isSome then none
        else m id := by
  unfold updErrors
  by_cases he : strTruthy e = true
  · simp [he, mapSet_lookup]
  · by_cases hcond : status ≠ "FAILED" ∧ (m id).isSome
    · simp [he, hcond, mapDel_lookup]
    · simp [he, hcond]

theorem update_errors_self (L : SdkListener) (id status : String)
    (d : Option EventDetails) (e : Option String) (t : Nat) (hid : id ≠ "") :
    (L._update_payment_state id status d e t).payment_errors id
      = updErrors L.payment_errors id status e id := by
  unfold SdkListener._update_payment_state
  simp [hid]

theorem strTruthy_getD (e : Option String) (he : strTruthy e = true) :
    strTruthy (some (e.getD "")) = true := by
  rcases e with _ | s
  · simp [strTruthy] at he
  · simpa [strTruthy] using he

theorem errorInvariant_update (L : SdkListener) (id status : String)
    (d : Option EventDetails) (e : Option String) (t : Nat)
    (h : errorInvariant L)
    (hc : strTruthy e = true ↔ status = "FAILED") :
    errorInvariant (L._update_payment_state id status d e t) := by
  by_cases hid : id = ""
  · unfold SdkListener._update_payment_state
    rw [if_pos hid]
    exact h
  · intro x
    by_cases hx : x = id
    · subst hx
      rw [update_errors_self L x status d e t hid, updErrors_self,
        update_statuses_lookup]
      simp only [hid, ne_eq, not_false_iff, true_and, if_pos rfl,
        Option.some.injEq]
      by_cases he : strTruthy e = true
      · simp [he, strTruthy_getD e he, hc.mp he]
      · have hst : status ≠ "FAILED" := fun hh => he (hc.mpr hh)
        rcases hm : L.payment_errors x with _ | v <;>
          simp [he, hst, hm, strTruthy_none]
    · have herr : (L._update_payment_state id status d e t).payment_errors x
          = L.payment_errors x := update_errors_other L id status d e t x hx
      rw [update_statuses_lookup, herr, if_neg (fun hcc => hx hcc.2)]
      exact h x

theorem errorInvariant_on_event (L : SdkListener) (ev : SdkEvent) (t : Nat)
    (h : errorInvariant L) (hg : failedErrorTruthy ev) :
    errorInvariant (L.on_event ev t) := by
  cases ev with
  | SYNCED => exact h
  | PAYMENT_FAILED od =>
      show errorInvariant (processPaymentEvent L od "FAILED" true t)
      rcases od with _ | d
      · exact h
      · rcases hres : resolveIdentifier d with _ | id
        · simpa [processPaymentEvent, hres] using h
        · simp only [processPaymentEvent, hres]
          apply errorInvariant_update _ _ _ _ _ _ h
          have hg' : d.error ≠ some "" := hg
          refine ⟨fun _ => rfl, fun _ => ?_⟩
          rcases hde : d.error with _ | s
          · simp [strTruthy, hde]
          · have hs : s ≠ "" := fun hempty => hg' (by rw [hde, hempty])
            simpa [strTruthy, hde] using hs
  | PAYMENT_PENDING od =>
      show errorInvariant (processPaymentEvent L od "PENDING" false t)
      rcases od with _ | d
      · exact h
      · rcases hres : resolveIdentifier d with _ | id
        · simpa [processPaymentEvent, hres] using h
        · simp only [processPaymentEvent, hres]
          apply errorInvariant_update _ _ _ _ _ _ h
          constructor
          · intro hh
            simp [strTruthy] at hh
          · intro hh
            simp at hh
  | PAYMENT_WAITING_CONFIRMATION od =>
      show errorInvariant
        (processPaymentEvent L od "WAITING_CONFIRMATION" false t)
      rcases od with _ | d
      · exact h
      · rcases hres : resolveIdentifier d with _ | id
        · simpa [processPaymentEvent, hres] using h
        · simp only [processPaymentEvent, hres]
          apply errorInvariant_update _ _ _ _ _ _ h
          constructor
          · intro hh
            simp [strTruthy] at hh
          · intro hh
            simp at hh
  | PAYMENT_SUCCEEDED od =>
      show errorInvariant (processPaymentEvent L od "SUCCEEDED" false t)
      rcases od with _ | d
      · exact h
      · rcases hres : resolveIdentifier d with _ | id
        · simpa [processPaymentEvent, hres] using h
        · simp only [processPaymentEvent, hres]
          apply errorInvariant_update _ _ _ _ _ _ h
          constructor
          · intro hh
            simp [strTruthy] at hh
          · intro hh
            simp at hh
  | PAYMENT_WAITING_FEE_ACCEPTANCE od =>
      show errorInvariant
        (processPaymentEvent L od "WAITING_FEE_ACCEPTANCE" false t)
      rcases od with _ | d
      · exact h
      · rcases hres : resolveIdentifier d with _ | id
        · simpa [processPaymentEvent, hres] using h
        · simp only [processPaymentEvent, hres]
          apply errorInvariant_update _ _ _ _ _ _ h
          constructor
          · intro hh
            simp [strTruthy] at hh
          · intro hh
            simp at hh

theorem errorInvariant_processEvents (evs : List (SdkEvent × Nat)) :
    ∀ L : SdkListener, errorInvariant L →
      (∀ p ∈ evs, failedErrorTruthy p.1) →
      errorInvariant (processEvents L evs) := by
  induction evs with
  | nil => exact fun L h _ => h
  | cons p rest ih =>
      intro L h hg
      exact ih _ (errorInvariant_on_event _ _ _ h (hg p (by simp)))
        (fun q hq => hg q (by simp [hq]))

/-- Counterexample to claim C2 as stated: a `PAYMENT_FAILED` event whose
details carry an empty-string error is falsy under `if error:`, so the
record ends with status `FAILED` and no stored error — the "every FAILED
transition leaves a non-empty error" direction fails. -/
theorem error_field_counterexample :
    ((processEvents SdkListener.init
        [(SdkEvent.PAYMENT_FAILED
            (some { payment_hash := some "x", error := some "" }),
          100)]).payment_statuses "x" = some "FAILED")
    ∧ ((processEvents SdkListener.init
        [(SdkEvent.PAYMENT_FAILED
            (some { payment_hash := some "x", error := some "" }),
          100)]).payment_errors "x" = none) := by
  constructor <;> decide

/-- Claim C2 (amended): for every event sequence in which no
`PAYMENT_FAILED` event carries an empty-string error value (absent error
fields default to `'Unknown error'`), after processing from a fresh
tracker a record's error entry is non-empty exactly when its current
status is `FAILED`; in particular non-FAILED transitions clear stored
errors and such FAILED transitions store a non-empty error. -/
theorem error_field_invariant (evs : List (SdkEvent × Nat))
    (hgood : ∀ p ∈ evs, failedErrorTruthy p.1) :
    ∀ id, strTruthy ((processEvents SdkListener.init evs).payment_errors id)
        = true
      ↔ (processEvents SdkListener.init evs).payment_statuses id
        = some "FAILED" :=
  errorInvariant_processEvents evs SdkListener.init
    (fun id =>
      ⟨fun hh => by simp [SdkListener.init, strTruthy_none] at hh,
       fun hh => by simp [SdkListener.init] at hh⟩)
    hgood

/-- Witness for `error_field_invariant` on a concrete failed payment with
error `"swap expired"`. -/
theorem error_field_invariant_witness :
    strTruthy ((processEvents SdkListener.init
          sampleFailedEvents).payment_errors "xyz") = true
      ↔ (processEvents SdkListener.init sampleFailedEvents).payment_statuses
          "xyz" = some "FAILED" :=
  error_field_invariant sampleFailedEvents
    (by
      intro p hp
      rcases List.mem_singleton.mp hp with rfl
      simp [failedErrorTruthy])
    "xyz"

/-- Claim C4: once an identifier reaches `SUCCEEDED` or
`WAITING_CONFIRMATION` via an event, `is_paid` answers true after every
subsequent event sequence — including later `FAILED` events for the same
identifier and arbitrary events for others — since nothing but the expiry
sweep removes entries from the `paid` list. -/
theorem paid_monotone (L : SdkListener) (ev : SdkEvent) (d : EventDetails)
    (id : String) (t : Nat) (evs : List (SdkEvent × Nat))
    (hev : ev = SdkEvent.PAYMENT_SUCCEEDED (some d) ∨
           ev = SdkEvent.PAYMENT_WAITING_CONFIRMATION (some d))
    (hres : resolveIdentifier d = some id) :
    (processEvents (L.on_event ev t) evs).is_paid id = true := by
  have hid : id ≠ "" := resolveIdentifier_ne_empty d id hres
  have hmem : id ∈ (L.on_event ev t).paid := by
    rcases hev with rfl | rfl <;>
    · unfold SdkListener.on_event processPaymentEvent
      simp only [hres]
      rw [update_paid_eq, if_neg hid]
      exact updPaid_self _ _ _ (by simp)
  exact is_paid_of_mem _ _ (processEvents_paid_mem evs _ id hmem)

/-- Witness for `paid_monotone`: `"abc"` succeeds, then fails again later
and other identifiers see events, yet `is_paid "abc"` stays true. -/
theorem paid_monotone_witness :
    (processEvents
        (SdkListener.init.on_event
          (SdkEvent.PAYMENT_SUCCEEDED (some { payment_hash := some "abc" })) 10)
        [(SdkEvent.PAYMENT_FAILED (some { payment_hash := some "abc", error := some "swap expired" }), 20),
         (SdkEvent.PAYMENT_PENDING (some { payment_hash := some "zzz" }), 30)]).is_paid "abc"
      = true :=
  paid_monotone SdkListener.init _ { payment_hash := some "abc" } "abc" 10 _
    (Or.inl rfl) (by decide)

/-- Claim C7: after the expiry sweep with retention `max_age`, an
identifier whose `last_updated` is older than the retention window loses
every tracked field (status, error, timestamp, details, paid and refunded
membership), while an identifier whose `last_updated` is within the
window keeps every tracked field unchanged. -/
theorem expiry_sweep (L : SdkListener) (current_time max_age : Nat)
    (id : String) :
    (∀ ts, L.payment_timestamps id = some ts → current_time - ts > max_age →
       (L.clear_old_data current_time max_age).payment_statuses id = none
       ∧ (L.clear_old_data current_time max_age).payment_errors id = none
       ∧ (L.clear_old_data current_time max_age).payment_timestamps id = none
       ∧ (L.clear_old_data current_time max_age).payment_details id = none
       ∧ id ∉ (L.clear_old_data current_time max_age).paid
       ∧ id ∉ (L.clear_old_data current_time max_age).refunded)
    ∧ (∀ ts, L.payment_timestamps id = some ts → current_time - ts ≤ max_age →
       (L.clear_old_data current_time max_age).payment_statuses id
           = L.payment_statuses id
       ∧ (L.clear_old_data current_time max_age).payment_errors id
           = L.payment_errors id
       ∧ (L.clear_old_data current_time max_age).payment_timestamps id
           = L.payment_timestamps id
       ∧ (L.clear_old_data current_time max_age).payment_details id
           = L.payment_details id
       ∧ (id ∈ (L.clear_old_data current_time max_age).paid ↔ id ∈ L.paid)
       ∧ (id ∈ (L.clear_old_data current_time max_age).refunded
           ↔ id ∈ L.refunded)) := by
  constructor
  · intro ts hts hgt
    simp [SdkListener.clear_old_data, hts, hgt, List.mem_filter]
  · intro ts hts hle
    have hngt : ¬(current_time - ts > max_age) := by omega
    simp [SdkListener.clear_old_data, hts, hngt, List.mem_filter]

/-- Witness for `expiry_sweep` on `sampleTracker` at clock 90000 with a
24h retention: the stale record (`last_updated = 10`) is fully removed
and the fresh one (`last_updated = 89000`) is untouched. -/
theorem expiry_sweep_witness :
    ((sampleTracker.clear_old_data 90000 86400).payment_statuses "old1" = none
     ∧ (sampleTracker.clear_old_data 90000 86400).payment_errors "old1" = none
     ∧ (sampleTracker.clear_old_data 90000 86400).payment_timestamps "old1" = none
     ∧ (sampleTracker.clear_old_data 90000 86400).payment_details "old1" = none
     ∧ "old1" ∉ (sampleTracker.clear_old_data 90000 86400).paid
     ∧ "old1" ∉ (sampleTracker.clear_old_data 90000 86400).refunded)
    ∧ ((sampleTracker.clear_old_data 90000 86400).payment_statuses "new1"
         = sampleTracker.payment_statuses "new1"
       ∧ (sampleTracker.clear_old_data 90000 86400).payment_errors "new1"
         = sampleTracker.payment_errors "new1"
       ∧ (sampleTracker.clear_old_data 90000 86400).payment_timestamps "new1"
         = sampleTracker.payment_timestamps "new1"
       ∧ (sampleTracker.clear_old_data 90000 86400).payment_details "new1"
         = sampleTracker.payment_details "new1"
       ∧ ("new1" ∈ (sampleTracker.clear_old_data 90000 86400).paid
           ↔ "new1" ∈ sampleTracker.paid)
       ∧ ("new1" ∈ (sampleTracker.clear_old_data 90000 86400).refunded
           ↔ "new1" ∈ sampleTracker.refunded)) :=
  ⟨(expiry_sweep sampleTracker 90000 86400 "old1").1 10 rfl (by decide),
   (expiry_sweep sampleTracker 90000 86400 "new1").2 89000 rfl (by decide)⟩

theorem processPaymentEvent_drop (L : SdkListener) (d : EventDetails)
    (status : String) (w : Bool) (t : Nat)
    (hres : resolveIdentifier d = none) :
    processPaymentEvent L (some d) status w t = L := by
  simp [processPaymentEvent, hres]

theorem processPaymentEvent_writes (L : SdkListener) (d : EventDetails)
    (status : String) (w : Bool) (t : Nat) (id : String)
    (hres : resolveIdentifier d = some id) :
    (processPaymentEvent L (some d) status w t).payment_statuses id
      = some status := by
  simp only [processPaymentEvent, hres]
  rw [update_statuses_lookup]
  simp [resolveIdentifier_ne_empty d id hres]

/-- Claim C8: the listener resolves an event's identifier as the first
non-empty field among payment hash, destination, swap id (refinement of
the source resolution against the spec-side ordered lookup); a payment
event with no details payload, or whose payload has none of these fields
non-empty, is dropped with no state mutation; and when resolution
succeeds the resolved identifier receives the event's status. -/
theorem identifier_resolution (L : SdkListener) (t : Nat) (ev : SdkEvent)
    (d : EventDetails) :
    (resolveIdentifier d = resolveSpec d)
    ∧ (isPaymentEvent ev = true → eventDetailsOf ev = none →
        L.on_event ev t = L)
    ∧ (eventDetailsOf ev = some d → resolveIdentifier d = none →
        L.on_event ev t = L)
    ∧ (∀ id, eventDetailsOf ev = some d → resolveIdentifier d = some id →
        ∀ st, eventStatusStr ev = some st →
          (L.on_event ev t).payment_statuses id = some st) := by
  refine ⟨?_, ?_, ?_, ?_⟩
  · unfold resolveIdentifier resolveSpec
    rcases h1 : truthyField d.payment_hash with _ | s1 <;>
      rcases h2 : truthyField d.destination with _ | s2 <;>
        rcases h3 : truthyField d.swap_id with _ | s3 <;>
          simp [h1, h2, h3]
  · cases ev
    case SYNCED => exact fun hp _ => absurd hp (by decide)
    all_goals
      intro hp hd
      rename_i od
      have hod : od = none := hd
      subst hod
      rfl
  · cases ev
    case SYNCED => exact fun hd _ => by simp [eventDetailsOf] at hd
    all_goals
      intro hd hres
      rename_i od
      have hod : od = some d := hd
      subst hod
      exact processPaymentEvent_drop L d _ _ t hres
  · cases ev
    case SYNCED => exact fun id hd => by simp [eventDetailsOf] at hd
    all_goals
      intro id hd hres st hst
      rename_i od
      have hod : od = some d := hd
      subst hod
      rw [← hst]
      exact processPaymentEvent_writes L d _ _ t id hres

/-- Witness for `identifier_resolution`: a payload with an empty payment
hash and destination `"dst"` resolves to `"dst"`, and the `PENDING` write
lands on `"dst"`. -/
theorem identifier_resolution_witness :
    (SdkListener.init.on_event
        (SdkEvent.PAYMENT_PENDING
          (some { payment_hash := some "", destination := some "dst" }))
        7).payment_statuses "dst" = some "PENDING" :=
  (identifier_resolution SdkListener.init 7
      (SdkEvent.PAYMENT_PENDING
        (some { payment_hash := some "", destination := some "dst" }))
      { payment_hash := some "", destination := some "dst" }).2.2.2
    "dst" rfl (by decide) "PENDING" rfl

end Breez
